import Mathlib

/-!
Shallow embedding of `src/main.py` (Streamlit medical-intake dashboard,
智能医疗问诊系统): the session state, the conversation pipeline
(`process_user_input`), the mock backend (`get_ai_response`), the
medication-reminder operations and the voice-capture drain handler, together
with theorems settling the specification claims about them.

Modelling conventions:
- Python strings are `String`; `str.strip()` is `pyStrip` (drop whitespace at
  both ends); the Python substring test `pat in s` is `strContains`.
- Python floats appearing in the mock payload are embedded as `ℚ`; no float
  arithmetic is performed by the program, values are only stored and compared.
- `datetime.now().strftime("%H:%M:%S")` is an external input, passed as an
  explicit `now : String` parameter.
- Mutation of `st.session_state` is explicit state passing on `SessionState`.
- A Python exception propagating out of a call is an `Except.error`; because
  `st.session_state` mutations performed before the raise persist, the error
  value carries the session state at the moment of the raise.
-/

set_option autoImplicit false

/-- Python `str.strip()` on the character list: drop whitespace from both
ends. -/
def stripChars (l : List Char) : List Char :=
  ((l.dropWhile Char.isWhitespace).reverse.dropWhile Char.isWhitespace).reverse

/-- Python `text.strip()`. -/
def pyStrip (s : String) : String :=
  ⟨stripChars s.data⟩

/-- Does `p` occur at the head of `l`? (helper for the Python `in` test). -/
def hasPre : List Char → List Char → Bool
  | [], _ => true
  | _ :: _, [] => false
  | p :: ps, c :: cs => p == c && hasPre ps cs

/-- Does `p` occur as a contiguous run anywhere in `l`? -/
def hasSub (p : List Char) : List Char → Bool
  | [] => hasPre p []
  | c :: cs => hasPre p (c :: cs) || hasSub p cs

/-- Python `pat in s` on strings: substring occurrence. -/
def strContains (s pat : String) : Bool :=
  hasSub pat.data s.data

/-- The `'type'` field of a conversation message: `'user'` or `'system'`. -/
inductive MsgType where
  | user
  | system
  deriving DecidableEq, Repr

/-- One entry of `st.session_state.conversation`:
`{'type': ..., 'content': ..., 'time': ...}`. -/
structure ConversationMessage where
  type : MsgType
  content : String
  time : String
  deriving DecidableEq, Repr

/-- A node of the mock symptom network: `{"id": ..., "group": ...}`. -/
structure SymptomNode where
  id : String
  group : Nat
  deriving DecidableEq, Repr

/-- A link of the mock symptom network:
`{"source": ..., "target": ..., "value": ...}`. -/
structure SymptomLink where
  source : String
  target : String
  value : ℚ
  deriving DecidableEq, Repr

/-- The `symptom_network` section of the diagnosis payload. -/
structure SymptomNetwork where
  nodes : List SymptomNode
  links : List SymptomLink
  deriving DecidableEq, Repr

/-- The dictionary stored in `st.session_state.diagnosis_data`: either the
`data` section of a backend response or the empty dict `{}` (both sections
absent). `probabilities` is the disease→probability mapping as an ordered
association list, matching Python dict iteration order. -/
structure DiagnosisData where
  symptom_network : Option SymptomNetwork
  probabilities : Option (List (String × ℚ))
  deriving DecidableEq, Repr

/-- The empty dict `{}` as a `DiagnosisData`. -/
def emptyDiagnosis : DiagnosisData :=
  { symptom_network := none, probabilities := none }

/-- Status of a medication reminder: `'pending'` or `'done'`. -/
inductive MedStatus where
  | pending
  | done
  deriving DecidableEq, Repr

/-- One entry of `st.session_state.medications`. -/
structure Medication where
  name : String
  time : String
  status : MedStatus
  deriving DecidableEq, Repr

/-- `st.session_state.user_profile`. -/
structure UserProfile where
  name : String
  age : Nat
  gender : String
  medical_history : List String
  deriving DecidableEq, Repr

/-- The session state (`st.session_state`) as initialised by
`init_session_state` plus the `warning` key written by `process_user_input`
(absent key and `None` both embed as `none`). Audio chunks are sample lists. -/
structure SessionState where
  conversation : List ConversationMessage
  user_profile : UserProfile
  diagnosis_data : DiagnosisData
  medications : List Medication
  audio_buffer : List (List Int)
  warning : Option String
  deriving DecidableEq, Repr

/-- `init_session_state`: the `session_defaults` dictionary (no `warning` key
yet, so `st.session_state.get('warning')` is `None`). -/
def init_session_state : SessionState :=
  { conversation := []
    user_profile := { name := "", age := 30, gender := "male", medical_history := [] }
    diagnosis_data := emptyDiagnosis
    medications := []
    audio_buffer := []
    warning := none }

/-- The dictionary returned by the backend:
`{"answer": ..., "data": ..., "warning": ...}`. `data` and `warning` are
optional so that `response.get('data', {})` / `response.get('warning')` can be
modelled for arbitrary (non-mock) responses as well. -/
structure AIResponse where
  answer : String
  data : Option DiagnosisData
  warning : Option String
  deriving DecidableEq, Repr

/-- The constant `data` section built by `get_ai_response`. -/
def mockDiagnosisData : DiagnosisData :=
  { symptom_network :=
      some { nodes := [{ id := "头痛", group := 1 }, { id := "发热", group := 2 }]
             links := [{ source := "头痛", target := "发热", value := (8 : ℚ) / 10 }] }
    probabilities :=
      some [("感冒", (65 : ℚ) / 100), ("流感", (25 : ℚ) / 100), ("偏头痛", (1 : ℚ) / 10)] }

/-- `get_ai_response(text)`: the mock AI service.  The answer embeds the input
verbatim, the `data` section is a constant, and `warning` is the high-risk
string exactly when `"发热" in text`. -/
def get_ai_response (text : String) : AIResponse :=
  { answer := "收到症状：" ++ text ++ "。请补充说明：疼痛程度如何？"
    data := some mockDiagnosisData
    warning := if strContains text "发热" then some "持续高热需立即就医" else none }

/-- `process_user_input(text)` against the actual (mock, total) backend: if
`text.strip()` is truthy, append the user message, call `get_ai_response`,
append the system message with `response['answer']`, then overwrite
`diagnosis_data` with `response.get('data', {})` and `warning` with
`response.get('warning')`; otherwise do nothing. -/
def process_user_input (now : String) (s : SessionState) (text : String) : SessionState :=
  if pyStrip text ≠ "" then
    let s1 := { s with conversation :=
                  s.conversation ++ [({ type := MsgType.user, content := text, time := now } : ConversationMessage)] }
    let response := get_ai_response text
    let s2 := { s1 with conversation :=
                  s1.conversation ++ [({ type := MsgType.system, content := response.answer, time := now } : ConversationMessage)] }
    { s2 with diagnosis_data := response.data.getD emptyDiagnosis
              warning := response.warning }
  else s

/-- `process_user_input(text)` with the backend call left abstract, so that a
failing backend (exception raised inside `get_ai_response`) can be discussed.
The source has no `try/except`: a raise after the user message was appended
propagates, and the mutations already performed persist, so the error carries
the session state at the raise. -/
def process_user_input_with (backend : String → Except String AIResponse)
    (now : String) (s : SessionState) (text : String) :
    Except (String × SessionState) SessionState :=
  if pyStrip text ≠ "" then
    let s1 := { s with conversation :=
                  s.conversation ++ [({ type := MsgType.user, content := text, time := now } : ConversationMessage)] }
    match backend text with
    | Except.error e => Except.error (e, s1)
    | Except.ok response =>
      let s2 := { s1 with conversation :=
                    s1.conversation ++ [({ type := MsgType.system, content := response.answer, time := now } : ConversationMessage)] }
      Except.ok { s2 with diagnosis_data := response.data.getD emptyDiagnosis
                          warning := response.warning }
  else Except.ok s

/-- Zero-padded two-digit decimal, as produced by `strftime` fields. -/
def pad2 (n : Nat) : String :=
  if n < 10 then "0" ++ toString n else toString n

/-- `med_time.strftime("%H:%M")` for a time-of-day with hour `h` and minute
`m`. -/
def strftimeHM (h m : Nat) : String :=
  pad2 h ++ ":" ++ pad2 m

/-- The "添加提醒" (add reminder) branch of `medication_reminder`:
unconditionally append `{'name': new_med, 'time': med_time.strftime("%H:%M"),
'status': 'pending'}`. -/
def add_reminder (meds : List Medication) (new_med : String) (h m : Nat) :
    List Medication :=
  meds ++ [({ name := new_med, time := strftimeHM h m, status := MedStatus.pending } : Medication)]

/-- The "✓" button branch of `medication_reminder`:
`st.session_state.medications[idx]['status'] = 'done'`. -/
def mark_done : List Medication → Nat → List Medication
  | [], _ => []
  | med :: meds, 0 => { med with status := MedStatus.done } :: meds
  | med :: meds, n + 1 => med :: mark_done meds n

/-- `np.concatenate(chunks)`: concatenation of the chunk list; raises
`ValueError` when the list is empty. -/
def np_concatenate (chunks : List (List Int)) : Except String (List Int) :=
  if chunks = [] then Except.error "need at least one array to concatenate"
  else Except.ok chunks.flatten

/-- The "结束录音" (stop recording) branch of `voice_input_component`,
parameterised by the transcription service. Modelled from the spec:
`speech_to_text` is called in the source but defined nowhere in the
repository; per the spec's external-interface contract it is
`transcribe(samples) → string | empty`, embedded as an abstract total function
`stt`. The branch concatenates the buffered chunks, transcribes, submits the
text through `process_user_input` when non-empty, then clears the buffer;
`np.concatenate` raising on an empty buffer propagates. -/
def voice_stop_drain (stt : List Int → String) (now : String) (s : SessionState) :
    Except String SessionState :=
  match np_concatenate s.audio_buffer with
  | Except.error e => Except.error e
  | Except.ok audio_array =>
    let text := stt audio_array
    let s1 := if text ≠ "" then process_user_input now s text else s
    Except.ok { s1 with audio_buffer := [] }

/-- A whole session: fold `process_user_input` over a list of submitted
inputs, starting from a given state. -/
def run_session (now : String) (s : SessionState) (inputs : List String) : SessionState :=
  inputs.foldl (process_user_input now) s

/-- The inputs of a session that pass the `text.strip()` guard (the turns the
mock backend answers, i.e. the successful turns). -/
def successfulInputs (inputs : List String) : List String :=
  inputs.filter (fun t => pyStrip t != "")

/-- Is a probability within `[0,1]`? -/
def probInRange (q : ℚ) : Bool :=
  decide (0 ≤ q) && decide (q ≤ 1)

/-- Written to the spec's words, for comparison with the code: a valid
`"HH:MM"` string is two decimal digits in `[0,24)`, a colon, and two decimal
digits in `[0,60)`. -/
def specValidHHMM (s : String) : Bool :=
  match s.data with
  | [h1, h2, c, m1, m2] =>
    h1.isDigit && h2.isDigit && c == ':' && m1.isDigit && m2.isDigit &&
    decide ((h1.toNat - 48) * 10 + (h2.toNat - 48) < 24) &&
    decide ((m1.toNat - 48) * 10 + (m2.toNat - 48) < 60)
  | _ => false

/-- Running the pipeline with the total mock backend never raises and agrees
with `process_user_input`. -/
theorem process_user_input_with_mock (now : String) (s : SessionState) (text : String) :
    process_user_input_with (fun t => Except.ok (get_ai_response t)) now s text =
      Except.ok (process_user_input now s text) := by
  unfold process_user_input_with process_user_input
  by_cases h : pyStrip text ≠ "" <;> simp [h]


/-- The time widget always formats to a valid `"HH:MM"` string. -/
theorem strftimeHM_valid : ∀ hh < 24, ∀ mm < 60, specValidHHMM (strftimeHM hh mm) = true := by
  decide

/-- Marking the same reminder done twice is the same as marking it once. -/
theorem mark_done_idem (meds : List Medication) (idx : Nat) :
    mark_done (mark_done meds idx) idx = mark_done meds idx := by
  induction meds generalizing idx with
  | nil => rfl
  | cons med meds ih =>
    cases idx with
    | zero => rfl
    | succ n => simp [mark_done, ih]

/-- Claim C1: for every input whose trimmed form is empty, the turn is
rejected (the `text.strip()` guard fails) and no state mutation occurs — the
conversation log, diagnosis data and warning (indeed the whole session state)
are unchanged. -/
theorem claim_C1_empty_input_no_mutation (now : String) (s : SessionState) (text : String)
    (h : pyStrip text = "") :
    process_user_input now s text = s := by
  unfold process_user_input
  simp [h]

/-- Witness for C1 at the inputs `""` and `"   "` from the initial state. -/
theorem claim_C1_witness :
    process_user_input "00:00:00" init_session_state "" = init_session_state ∧
    process_user_input "00:00:00" init_session_state "   " = init_session_state :=
  ⟨claim_C1_empty_input_no_mutation "00:00:00" init_session_state "" (by decide),
   claim_C1_empty_input_no_mutation "00:00:00" init_session_state "   " (by decide)⟩

/-- Claim C2: a successful turn appends exactly the user message with the
submitted text followed by the system message carrying the backend's answer
(so the log grows by exactly 2), and replaces the diagnosis data and warning
wholesale with the response's. -/
theorem claim_C2_successful_turn (now : String) (s : SessionState) (text : String)
    (h : pyStrip text ≠ "") :
    (process_user_input now s text).conversation =
      s.conversation ++
        [({ type := MsgType.user, content := text, time := now } : ConversationMessage),
         ({ type := MsgType.system, content := (get_ai_response text).answer, time := now } : ConversationMessage)] ∧
    (process_user_input now s text).conversation.length = s.conversation.length + 2 ∧
    (process_user_input now s text).diagnosis_data = (get_ai_response text).data.getD emptyDiagnosis ∧
    (process_user_input now s text).warning = (get_ai_response text).warning := by
  unfold process_user_input
  simp [h]

/-- Witness for C2 at the input `"头痛三天，伴有发热"` from the initial
state. -/
theorem claim_C2_witness :
    (process_user_input "10:00:00" init_session_state "头痛三天，伴有发热").conversation =
      init_session_state.conversation ++
        [({ type := MsgType.user, content := "头痛三天，伴有发热", time := "10:00:00" } : ConversationMessage),
         ({ type := MsgType.system, content := (get_ai_response "头痛三天，伴有发热").answer, time := "10:00:00" } : ConversationMessage)] ∧
    (process_user_input "10:00:00" init_session_state "头痛三天，伴有发热").conversation.length =
      init_session_state.conversation.length + 2 ∧
    (process_user_input "10:00:00" init_session_state "头痛三天，伴有发热").diagnosis_data =
      (get_ai_response "头痛三天，伴有发热").data.getD emptyDiagnosis ∧
    (process_user_input "10:00:00" init_session_state "头痛三天，伴有发热").warning =
      (get_ai_response "头痛三天，伴有发热").warning :=
  claim_C2_successful_turn "10:00:00" init_session_state "头痛三天，伴有发热" (by decide)

/-- Claim C8: `markDone` is idempotent — for any valid index, marking twice
equals marking once, and the second call is a total no-op rather than an
error. -/
theorem claim_C8_mark_done_idempotent (meds : List Medication) (idx : Nat)
    (_h : idx < meds.length) :
    mark_done (mark_done meds idx) idx = mark_done meds idx :=
  mark_done_idem meds idx

/-- Witness for C8 on a one-element medication list at index 0. -/
theorem claim_C8_witness :
    mark_done (mark_done [({ name := "阿司匹林", time := "08:00", status := MedStatus.pending } : Medication)] 0) 0 =
      mark_done [({ name := "阿司匹林", time := "08:00", status := MedStatus.pending } : Medication)] 0 :=
  claim_C8_mark_done_idempotent
    [({ name := "阿司匹林", time := "08:00", status := MedStatus.pending } : Medication)] 0 (by decide)

/-- Claim C10: the mock backend's `data` section is one constant, independent
of the input; the answer embeds the input verbatim between fixed prefix and
suffix; and the warning is present exactly when the input contains the
substring `"发热"`. -/
theorem claim_C10_mock_backend_shape (t1 t2 : String) :
    (get_ai_response t1).data = (get_ai_response t2).data ∧
    (get_ai_response t1).data = some mockDiagnosisData ∧
    (get_ai_response t1).answer = "收到症状：" ++ t1 ++ "。请补充说明：疼痛程度如何？" ∧
    (get_ai_response t1).warning.isSome = strContains t1 "发热" := by
  refine ⟨rfl, rfl, rfl, ?_⟩
  cases hc : strContains t1 "发热" <;> simp [get_ai_response, hc]

/-- Counterexample to C5 as stated: after `process_user_input("轻微咳嗽")`
(no `"发热"` substring), the stored warning is `None`, not the string
`"no active warning"`. -/
theorem claim_C5_counterexample :
    (process_user_input "00:00:00" init_session_state "轻微咳嗽").warning ≠ some "no active warning" ∧
    (process_user_input "00:00:00" init_session_state "轻微咳嗽").warning = none := by
  constructor <;> decide

/-- Claim C5 as amended: when the backend's warning is absent the turn stores
`None` (the no-active-warning state); in particular any successful turn whose
text does not contain `"发热"` leaves `warning = None`. -/
theorem claim_C5_amended_warning_is_none (now : String) (s : SessionState) (text : String)
    (h1 : pyStrip text ≠ "") (h2 : strContains text "发热" = false) :
    (process_user_input now s text).warning = none := by
  unfold process_user_input get_ai_response
  simp [h1, h2]

/-- Witness for the amended C5 at the input `"轻微咳嗽"`. -/
theorem claim_C5_witness :
    (process_user_input "08:30:00" init_session_state "轻微咳嗽").warning = none :=
  claim_C5_amended_warning_is_none "08:30:00" init_session_state "轻微咳嗽"
    (by decide) (by decide)

/-- Counterexample to C3 as stated: with a backend that raises (here a
timeout), `process_user_input` propagates the exception — the result is an
error, not a success carrying a failure-notice system message — while the
user message is already logged and diagnosis data and warning are the
initial ones. -/
theorem claim_C3_counterexample :
    (process_user_input_with (fun _ => Except.error "timeout") "00:00:00" init_session_state "头痛").toOption = none ∧
    process_user_input_with (fun _ => Except.error "timeout") "00:00:00" init_session_state "头痛" =
      Except.error ("timeout",
        { init_session_state with
            conversation := [({ type := MsgType.user, content := "头痛", time := "00:00:00" } : ConversationMessage)] }) := by
  constructor <;> rfl

/-- Claim C3 as amended: a backend failure inside a turn is NOT caught — the
exception propagates as a hard error; at that point the conversation log has
gained only the user's message (no system message), and diagnosis data and
warning are exactly as before the turn. -/
theorem claim_C3_amended_failure_propagates (backend : String → Except String AIResponse)
    (now : String) (s : SessionState) (text e : String)
    (h1 : pyStrip text ≠ "") (h2 : backend text = Except.error e) :
    process_user_input_with backend now s text =
      Except.error (e,
        { s with conversation :=
            s.conversation ++ [({ type := MsgType.user, content := text, time := now } : ConversationMessage)] }) := by
  unfold process_user_input_with
  simp [h1, h2]

/-- Witness for the amended C3: a timing-out backend on input `"头痛"`. -/
theorem claim_C3_witness :
    process_user_input_with (fun _ => Except.error "timeout") "00:00:00" init_session_state "头痛" =
      Except.error ("timeout",
        { init_session_state with
            conversation :=
              init_session_state.conversation ++
                [({ type := MsgType.user, content := "头痛", time := "00:00:00" } : ConversationMessage)] }) :=
  claim_C3_amended_failure_propagates (fun _ => Except.error "timeout")
    "00:00:00" init_session_state "头痛" "timeout" (by decide) rfl

/-- Counterexample to C4 as stated: nothing clamps — a backend response
carrying probability `3/2` is stored as-is, out of `[0,1]`, by a successful
turn. -/
theorem claim_C4_counterexample :
    (process_user_input_with
        (fun _ => Except.ok
          ({ answer := "ok"
             data := some ({ symptom_network := none
                             probabilities := some [("感冒", (3 : ℚ) / 2)] } : DiagnosisData)
             warning := none } : AIResponse))
        "00:00:00" init_session_state "头痛").toOption.map
      (fun s => s.diagnosis_data.probabilities) = some (some [("感冒", (3 : ℚ) / 2)]) ∧
    probInRange ((3 : ℚ) / 2) = false := by
  constructor
  · rfl
  · have h1 : ¬ ((3 : ℚ) / 2 ≤ 1) := by norm_num
    unfold probInRange
    rw [decide_eq_false h1, Bool.and_false]

/-- Claim C4 as amended: probabilities are stored without clamping, but the
actual (mock) backend only ever produces probabilities inside `[0,1]`, so
every probability stored by a successful turn lies in `[0,1]`. -/
theorem claim_C4_amended_mock_probs_in_range (now : String) (s : SessionState) (text : String)
    (h : pyStrip text ≠ "") :
    (((process_user_input now s text).diagnosis_data.probabilities.getD []).map Prod.snd).all probInRange = true := by
  unfold process_user_input
  rw [if_pos h]
  show ((((get_ai_response text).data.getD emptyDiagnosis).probabilities.getD []).map Prod.snd).all probInRange = true
  simp only [get_ai_response, mockDiagnosisData, Option.getD_some, List.map_cons, List.map_nil,
    List.all_cons, List.all_nil, Bool.and_eq_true, decide_eq_true_eq, probInRange, Bool.and_true]
  norm_num

/-- Witness for the amended C4 at the input `"头痛"`. -/
theorem claim_C4_witness :
    (((process_user_input "00:00:00" init_session_state "头痛").diagnosis_data.probabilities.getD []).map Prod.snd).all probInRange = true :=
  claim_C4_amended_mock_probs_in_range "00:00:00" init_session_state "头痛" (by decide)

/-- Counterexample to C6 as stated: `addReminder("", "08:00")` does not fail
and does not leave the list unchanged — the empty-named reminder is appended
(no validation exists). -/
theorem claim_C6_counterexample :
    add_reminder [] "" 8 0 =
      [({ name := "", time := "08:00", status := MedStatus.pending } : Medication)] ∧
    (add_reminder [] "" 8 0).length ≠ 0 := by
  constructor <;> decide

/-- Claim C6 as amended: `addReminder` performs no validation and never
fails: it always appends exactly one Medication with status `pending` (an
empty name is accepted); the time string, produced by formatting the time
widget's value, is always a valid `"HH:MM"` string. -/
theorem claim_C6_amended_always_appends (meds : List Medication) (new_med : String)
    (hh mm : Nat) (h1 : hh < 24) (h2 : mm < 60) :
    (add_reminder meds new_med hh mm).length = meds.length + 1 ∧
    (add_reminder meds new_med hh mm).getLast? =
      some ({ name := new_med, time := strftimeHM hh mm, status := MedStatus.pending } : Medication) ∧
    specValidHHMM (strftimeHM hh mm) = true := by
  refine ⟨by simp [add_reminder], ?_, strftimeHM_valid hh h1 mm h2⟩
  simp [add_reminder]

/-- Witness for the amended C6 at `addReminder("", "08:00")` on the empty
list. -/
theorem claim_C6_witness :
    (add_reminder [] "" 8 0).length = ([] : List Medication).length + 1 ∧
    (add_reminder [] "" 8 0).getLast? =
      some ({ name := "", time := strftimeHM 8 0, status := MedStatus.pending } : Medication) ∧
    specValidHHMM (strftimeHM 8 0) = true :=
  claim_C6_amended_always_appends [] "" 8 0 (by decide) (by decide)

/-- Claim C7: with chunks collected, the stop handler hands the concatenation
of all chunks, in order, to transcription, succeeds, and leaves the audio
buffer empty; with zero chunks it fails (the `np.concatenate` ValueError) and
never returns a successful result. -/
theorem claim_C7_stop_and_drain (stt : List Int → String) (now : String) (s : SessionState) :
    (s.audio_buffer ≠ [] →
      voice_stop_drain stt now s =
        Except.ok
          { (if stt s.audio_buffer.flatten ≠ "" then
               process_user_input now s (stt s.audio_buffer.flatten)
             else s) with
            audio_buffer := [] }) ∧
    (s.audio_buffer = [] →
      voice_stop_drain stt now s = Except.error "need at least one array to concatenate") := by
  constructor
  · intro h
    unfold voice_stop_drain np_concatenate
    simp [h]
  · intro h
    unfold voice_stop_drain np_concatenate
    simp [h]

/-- Witness for C7: a two-chunk buffer drains to a success with an empty
buffer, and an empty buffer fails. -/
theorem claim_C7_witness :
    voice_stop_drain (fun _ => "") "00:00:00"
        { init_session_state with audio_buffer := [[1, 2], [3]] } =
      Except.ok init_session_state ∧
    voice_stop_drain (fun _ => "") "00:00:00" init_session_state =
      Except.error "need at least one array to concatenate" := by
  constructor
  · exact (claim_C7_stop_and_drain (fun _ => "") "00:00:00"
      { init_session_state with audio_buffer := [[1, 2], [3]] }).1 (by decide)
  · exact (claim_C7_stop_and_drain (fun _ => "") "00:00:00" init_session_state).2 rfl

/-- A turn whose input strips to empty leaves the state untouched. -/
theorem process_user_input_empty (now : String) (s : SessionState) (text : String)
    (h : pyStrip text = "") :
    process_user_input now s text = s := by
  unfold process_user_input
  simp [h]

/-- The diagnosis data after any run equals that of the latest successful
turn's response, or the starting one when no turn succeeded. -/
theorem run_session_diag (now : String) (s : SessionState) (inputs : List String) :
    (run_session now s inputs).diagnosis_data =
      match (successfulInputs inputs).getLast? with
      | none => s.diagnosis_data
      | some t => (get_ai_response t).data.getD emptyDiagnosis := by
  induction inputs generalizing s with
  | nil => rfl
  | cons t ts ih =>
    show (run_session now (process_user_input now s t) ts).diagnosis_data = _
    rw [ih]
    by_cases h : pyStrip t = ""
    · have hp : process_user_input now s t = s :=
        process_user_input_empty now s t h
      have hf : successfulInputs (t :: ts) = successfulInputs ts := by
        simp [successfulInputs, List.filter_cons, h]
      rw [hp, hf]
    · have hd : (process_user_input now s t).diagnosis_data =
          (get_ai_response t).data.getD emptyDiagnosis := by
        unfold process_user_input
        rw [if_pos h]
      have hf : successfulInputs (t :: ts) = t :: successfulInputs ts := by
        simp [successfulInputs, List.filter_cons, h]
      rw [hf, hd]
      cases he : successfulInputs ts with
      | nil => simp [he]
      | cons u us =>
        rw [List.getLast?_cons_cons,
          List.getLast?_eq_getLast_of_ne_nil (List.cons_ne_nil u us)]

/-- Claim C9: the session starts with an empty diagnosis dict, and after any
sequence of submitted inputs the diagnosis data equals exactly the `data`
section of the latest successful backend response (replaced wholesale, never
merged), or stays empty while no turn has succeeded. -/
theorem claim_C9_diagnosis_reflects_latest_response (now : String) (inputs : List String) :
    init_session_state.diagnosis_data = emptyDiagnosis ∧
    (run_session now init_session_state inputs).diagnosis_data =
      match (successfulInputs inputs).getLast? with
      | none => emptyDiagnosis
      | some t => (get_ai_response t).data.getD emptyDiagnosis := by
  refine ⟨rfl, ?_⟩
  rw [run_session_diag]
  cases (successfulInputs inputs).getLast? <;> rfl
